import Mathlib

/-!
Shallow embedding of the scoring engine of `src/buffet_analyzer.py`
(the Buffett-style stock scorer): the per-record heuristic evaluators,
the metric normalizer, the intrinsic-value estimator with its fallback
ensemble, and the aggregation / selection / ranking pipeline
`buffett_analysis`.

Modelling conventions:
* Python floats are modelled as `ℚ` (all arithmetic in the engine is
  exact on rationals; no float-rounding behaviour is claimed anywhere).
* A Python dict record is a structure whose optional fields are
  `Option ℚ` / `Option String`; `data.get(k)` returning `None` for an
  absent key is `none`.  A key present with value `None` is collapsed
  onto the absent case (`data.get(k, default)` sites in the source never
  distinguish the two for the fields modelled here).
* f-string interpolations inside reason / warning messages are elided:
  each message keeps the fixed text of the source, without the numeric
  value spliced into it.  No claim inspects the interpolated numbers.
* `analyze_technical_indicators` returns `Option _`: the source crashes
  with a `TypeError` (comparing `None` with `0`) when `macd_line` and
  `macd_signal` are present and different while `macd_histogram` is
  absent; `none` models that exception, which aborts the whole run.
* The write-backs of `sector_avg_<metric>`, `valuation_methods` and the
  method description strings are display-only payload that no embedded
  computation ever reads back; they are elided.
-/

set_option maxRecDepth 2000

/-- Character-list version of the Python substring test `needle in hay`:
does the first list occur as a leading segment of the second? -/
def leadMatch : List Char → List Char → Bool
  | [], _ => true
  | _ :: _, [] => false
  | a :: as, b :: bs => a == b && leadMatch as bs

/-- Does the first character list occur contiguously inside the second? -/
def occursIn (n : List Char) : List Char → Bool
  | [] => n.isEmpty
  | c :: cs => leadMatch n (c :: cs) || occursIn n cs

/-- The Python membership test `needle in hay` on strings. -/
def substrOf (needle hay : String) : Bool :=
  occursIn needle.toList hay.toList

/-- One per-symbol record of the input mapping (`data/latest.json`).
Every metric the evaluators of `buffet_analyzer.py` read is a field;
absent dict keys are `none` / the Python-falsy default. -/
structure StockRecord where
  error : Bool := false
  name : String := ""
  sector : Option String := none
  longBusinessSummary : Option String := none
  revenue_yoy : Option ℚ := none
  revenue_ttm_yoy : Option ℚ := none
  revenue_qoq : Option ℚ := none
  operating_profit_yoy : Option ℚ := none
  operating_profit_qoq : Option ℚ := none
  net_profit_yoy : Option ℚ := none
  net_profit_qoq : Option ℚ := none
  profit_margin : Option ℚ := none
  roe : Option ℚ := none
  returnOnAssets : Option ℚ := none
  debt_to_equity : Option ℚ := none
  interestCoverageRatio : Option ℚ := none
  currentRatio : Option ℚ := none
  fcf : Option ℚ := none
  market_cap : Option ℚ := none
  pe_ratio : Option ℚ := none
  pb_ratio : Option ℚ := none
  intrinsic_value : Option ℚ := none
  current_price : Option ℚ := none
  margin_of_safety : Option ℚ := none
  dividendYield : Option ℚ := none
  price_history_available : Bool := false
  rsi : Option ℚ := none
  ma_50 : Option ℚ := none
  ma_200 : Option ℚ := none
  macd_line : Option ℚ := none
  macd_signal : Option ℚ := none
  macd_histogram : Option ℚ := none
  shareholding_data_available : Bool := false
  promoterHolding : Option ℚ := none
  promoterHoldingChange : Option ℚ := none
  fiiHolding : Option ℚ := none
  diiHolding : Option ℚ := none
  fiiHoldingChange : Option ℚ := none
  diiHoldingChange : Option ℚ := none
  payoutRatio : Option ℚ := none
  hasRecentBuyback : Bool := false
  corporate_actions_available : Bool := false
  eps : Option ℚ := none
  trailingEPS : Option ℚ := none
  bookValue : Option ℚ := none
  deriving DecidableEq

/-- Result triple of the list-style evaluators:
`(score, reasons, warnings)`. -/
abbrev EvalResult := ℚ × List String × List String

/-- Sequential composition of two evaluator segments: scores add,
reason and warning lists concatenate in order. -/
def combineER (a b : EvalResult) : EvalResult :=
  (a.1 + b.1, a.2.1 ++ b.2.1, a.2.2 ++ b.2.2)

/-- The in-place standardization of `debt_to_equity` performed at the top
of the per-stock loop of `buffett_analysis` (lines 1009-1011):
`if data.get('debt_to_equity') and data['debt_to_equity'] > 3:
   data['debt_to_equity'] = data['debt_to_equity'] / 100`.
The `v ≠ 0` conjunct is the Python truthiness test of `data.get(...)`. -/
def normalizeRecord (data : StockRecord) : StockRecord :=
  match data.debt_to_equity with
  | some v =>
    if v ≠ 0 ∧ 3 < v then { data with debt_to_equity := some (v / 100) } else data
  | none => data

/-- `analyze_growth_metrics` (revenue / profit growth, YoY and QoQ). -/
def analyze_growth_metrics (data : StockRecord) : EvalResult :=
  let p1 : EvalResult :=
    match data.revenue_yoy with
    | some v =>
      if 25 < v then (3, ["Exceptional revenue growth (YoY)"], [])
      else if 15 < v then (2, ["Strong revenue growth (YoY)"], [])
      else if 8 < v then (1, ["Solid revenue growth (YoY)"], [])
      else if v < 0 then (-1, [], ["Declining revenue (YoY)"])
      else (0, [], [])
    | none => (0, [], ["YoY revenue growth data not available"])
  let p2 : EvalResult :=
    match data.revenue_ttm_yoy with
    | some v =>
      if 25 < v then (3, ["Exceptional TTM revenue growth (YoY)"], [])
      else if 15 < v then (2, ["Strong TTM revenue growth (YoY)"], [])
      else if 8 < v then (1, ["Solid TTM revenue growth (YoY)"], [])
      else if v < 0 then (-1, [], ["Declining TTM revenue (YoY)"])
      else (0, [], [])
    | none => (0, [], [])
  let p3 : EvalResult :=
    match data.revenue_qoq with
    | some v =>
      if 10 < v then (1, ["Strong quarterly revenue growth (QoQ)"], [])
      else if v < -5 then (-(1/2), [], ["Significant quarterly revenue decline (QoQ)"])
      else (0, [], [])
    | none => (0, [], [])
  let p4 : EvalResult :=
    match data.operating_profit_yoy with
    | some v =>
      if 30 < v then (3, ["Exceptional operating profit growth (YoY)"], [])
      else if 20 < v then (2, ["Strong operating profit growth (YoY)"], [])
      else if 10 < v then (1, ["Solid operating profit growth (YoY)"], [])
      else if v < 0 then (-1, [], ["Declining operating profit (YoY)"])
      else (0, [], [])
    | none => (0, [], ["YoY operating profit growth data not available"])
  let p5 : EvalResult :=
    match data.operating_profit_qoq with
    | some v =>
      if 15 < v then (1, ["Strong quarterly operating profit growth (QoQ)"], [])
      else if v < -10 then (-(1/2), [], ["Significant quarterly operating profit decline (QoQ)"])
      else (0, [], [])
    | none => (0, [], [])
  let p6 : EvalResult :=
    match data.net_profit_yoy with
    | some v =>
      if 35 < v then (3, ["Exceptional net profit growth (YoY)"], [])
      else if 25 < v then (2, ["Strong net profit growth (YoY)"], [])
      else if 15 < v then (1, ["Solid net profit growth (YoY)"], [])
      else if v < 0 then (-1, [], ["Declining net profit (YoY)"])
      else (0, [], [])
    | none => (0, [], ["YoY net profit growth data not available"])
  let p7 : EvalResult :=
    match data.net_profit_qoq with
    | some v =>
      if 15 < v then (1, ["Strong quarterly net profit growth (QoQ)"], [])
      else if v < -10 then (-(1/2), [], ["Significant quarterly net profit decline (QoQ)"])
      else (0, [], [])
    | none => (0, [], [])
  let valid :=
    [data.revenue_yoy, data.operating_profit_yoy, data.net_profit_yoy].filterMap id
  let p8 : EvalResult :=
    if 2 ≤ valid.length then
      let c1 : EvalResult :=
        if valid.all (fun m => decide (0 < m)) then
          (1, ["Consistent positive growth across revenue and profits"], [])
        else (0, [], [])
      let expanding :=
        (match data.operating_profit_yoy, data.revenue_yoy with
         | some o, some r => decide (r < o)
         | _, _ => false)
        || (match data.net_profit_yoy, data.revenue_yoy with
            | some n, some r => decide (r < n)
            | _, _ => false)
      let c2 : EvalResult :=
        if expanding then
          (1, ["Expanding profit margins (profit growth exceeds revenue growth)"], [])
        else (0, [], [])
      combineER c1 c2
    else (0, [], [])
  combineER p1 (combineER p2 (combineER p3 (combineER p4
    (combineER p5 (combineER p6 (combineER p7 p8))))))

/-- `analyze_operating_efficiency` (profit margin, ROE, ROA). -/
def analyze_operating_efficiency (data : StockRecord) : EvalResult :=
  let p1 : EvalResult :=
    match data.profit_margin with
    | some v =>
      if 20 < v then (3, ["Exceptional profit margin"], [])
      else if 15 < v then (2, ["Strong profit margin"], [])
      else if 10 < v then (1, ["Good profit margin"], [])
      else (0, [], [])
    | none => (0, [], ["Profit margin data not available"])
  let p2 : EvalResult :=
    match data.roe with
    | some v =>
      if 20 < v then (3, ["Exceptional ROE"], [])
      else if 15 < v then (2, ["Strong ROE"], [])
      else if 10 < v then (1, ["Good ROE"], [])
      else (0, [], [])
    | none => (0, [], ["ROE data not available"])
  let p3 : EvalResult :=
    match data.returnOnAssets with
    | some v =>
      let roa := v * 100
      if 10 < roa then (2, ["Exceptional ROA"], [])
      else if 5 < roa then (1, ["Strong ROA"], [])
      else (0, [], [])
    | none => (0, [], [])
  combineER p1 (combineER p2 p3)

/-- `analyze_financial_health` (leverage, coverage, liquidity, free cash
flow yield). -/
def analyze_financial_health (data : StockRecord) : EvalResult :=
  let p1 : EvalResult :=
    match data.debt_to_equity with
    | some v =>
      if v < 0.3 then (3, ["Minimal debt-to-equity ratio"], [])
      else if v < 0.5 then (2, ["Low debt-to-equity ratio"], [])
      else if v < 0.7 then (1, ["Moderate debt-to-equity ratio"], [])
      else if 1.5 < v then (-1, [], ["High debt-to-equity ratio"])
      else (0, [], [])
    | none => (0, [], ["Debt-to-equity data not available"])
  let p2 : EvalResult :=
    match data.interestCoverageRatio with
    | some v =>
      if 10 < v then (2, ["Excellent interest coverage ratio"], [])
      else if 5 < v then (1, ["Strong interest coverage ratio"], [])
      else if v < 2 then (-1, [], ["Low interest coverage ratio"])
      else (0, [], [])
    | none => (0, [], [])
  let p3 : EvalResult :=
    match data.currentRatio with
    | some v =>
      if 2 < v then (1, ["Strong current ratio"], [])
      else if v < 1 then (-1, [], ["Weak current ratio"])
      else (0, [], [])
    | none => (0, [], [])
  let p4 : EvalResult :=
    match data.fcf with
    | some f =>
      if 0 < f then
        match data.market_cap with
        | some m =>
          -- Python: `if market_cap and market_cap > 0` (truthiness + sign)
          if m ≠ 0 ∧ 0 < m then
            let fcf_yield := f / m * 100
            if 8 < fcf_yield then (3, ["Excellent FCF yield"], [])
            else if 5 < fcf_yield then (2, ["Strong FCF yield"], [])
            else if 3 < fcf_yield then (1, ["Positive FCF yield"], [])
            else (0, [], [])
          else (1, ["Positive free cash flow"], [])
        | none => (1, ["Positive free cash flow"], [])
      else (0, [], [])
    | none => (0, [], ["Free cash flow data not available"])
  combineER p1 (combineER p2 (combineER p3 p4))

/-- Sector keyword list of `analyze_industry_dynamics`. -/
def favorable_industries : List String :=
  ["Consumer Staples", "Consumer Defensive", "Consumer Goods", "Utilities",
   "Insurance", "Banking", "Financial Services", "Financial"]

/-- Sector keyword list of `analyze_industry_dynamics`. -/
def moderate_industries : List String :=
  ["Healthcare", "Technology", "Communication Services", "Industrial",
   "Energy", "Telecom", "Real Estate", "Pharmaceutical"]

/-- Sector keyword list of `analyze_industry_dynamics`. -/
def unfavorable_industries : List String :=
  ["Biotechnology", "Cryptocurrency", "Cannabis", "Airlines", "Mining",
   "Oil & Gas E&P", "Fashion", "Retail"]

/-- Keyword list of `analyze_industry_dynamics`. -/
def high_concentration_keywords : List String :=
  ["monopoly", "duopoly", "market leader", "dominant", "leading"]

/-- `analyze_industry_dynamics`: classifies the free-text sector by
substring against keyword lists, plus a market-position bonus read off
the company name and business summary.  Returns `(score, reason)`. -/
def analyze_industry_dynamics (_symbol : String) (data : StockRecord) : ℚ × String :=
  let sector := data.sector.getD "Unknown"
  let base : ℚ × String :=
    if favorable_industries.any (fun ind => substrOf ind sector) then
      (2, "Industry with stable cash flows and high entry barriers")
    else if moderate_industries.any (fun ind => substrOf ind sector) then
      (1, "Industry with moderate business stability")
    else if unfavorable_industries.any (fun ind => substrOf ind sector) then
      (-1, "Industry that Buffett typically avoids")
    else (0, "Neutral industry assessment")
  let company_name := data.name
  let company_desc := data.longBusinessSummary.getD ""
  -- Python: `if company_desc and any(keyword in (name + desc).lower() ...)`
  if company_desc ≠ "" ∧
      high_concentration_keywords.any
        (fun k => substrOf k (company_name ++ company_desc).toLower) then
    (base.1 + 1, base.2 ++ ". Appears to have strong market position")
  else base

/-- Sector keyword list of `analyze_regulatory_environment`.  The two
adjacent Python string literals `'Pharmaceutical' 'Financial Services'`
concatenate implicitly, which the embedding reproduces verbatim. -/
def stable_regulatory_sectors : List String :=
  ["Consumer Staples", "Consumer Goods", "Insurance", "Banking",
   "PharmaceuticalFinancial Services", "Utilities"]

/-- Sector keyword list of `analyze_regulatory_environment`. -/
def challenging_regulatory_sectors : List String :=
  ["Healthcare", "Telecom", "Energy", "Banking", "Technology", "Oil & Gas"]

/-- India-specific keyword list of `analyze_regulatory_environment`. -/
def india_favorable_sectors : List String :=
  ["IT Services", "Technology", "Consumer Goods", "Automotive", "Pharmaceutical"]

/-- India-specific keyword list of `analyze_regulatory_environment`. -/
def india_challenging_sectors : List String :=
  ["Telecom", "Banking", "Energy", "Real Estate"]

/-- `analyze_regulatory_environment`: sector classification with a
separate branch for NSE-listed (`.NS`) symbols.  Returns
`(score, reason)`. -/
def analyze_regulatory_environment (symbol : String) (data : StockRecord) : ℚ × String :=
  let sector := data.sector.getD "Unknown"
  if substrOf ".NS" symbol then
    if india_favorable_sectors.any (fun ind => substrOf ind sector) then
      (1, "Favorable regulatory environment in India")
    else if india_challenging_sectors.any (fun ind => substrOf ind sector) then
      (-1, "Challenging regulatory environment in India")
    else (0, "Neutral regulatory assessment")
  else
    if stable_regulatory_sectors.any (fun ind => substrOf ind sector) then
      (1, "Generally stable regulatory environment")
    else if challenging_regulatory_sectors.any (fun ind => substrOf ind sector) then
      (-1, "Often faces regulatory challenges")
    else (0, "Neutral regulatory assessment")

/-- Sector keyword list of `analyze_macroeconomic_factors`. -/
def recession_resistant_sectors : List String :=
  ["Consumer Staples", "Healthcare", "Utilities", "Discount Retail",
   "Essential Services", "Consumer Defensive"]

/-- Sector keyword list of `analyze_macroeconomic_factors`. -/
def economically_sensitive_sectors : List String :=
  ["Luxury Goods", "Travel", "Hospitality", "Automotive", "Construction",
   "Real Estate", "Discretionary", "Industrial", "Banking"]

/-- `analyze_macroeconomic_factors`: sector classification with a
separate branch for `.NS` symbols (where the neutral fallback scores 1,
not 0).  Returns `(score, reason)`. -/
def analyze_macroeconomic_factors (symbol : String) (data : StockRecord) : ℚ × String :=
  let sector := data.sector.getD "Unknown"
  if substrOf ".NS" symbol then
    if recession_resistant_sectors.any (fun ind => substrOf ind sector) then
      (2, "Recession-resistant sector in fast-growing Indian economy")
    else if economically_sensitive_sectors.any (fun ind => substrOf ind sector) then
      (0, "Economically sensitive but benefits from growth of India")
    else (1, "Neutral macroeconomic assessment in Indian context")
  else
    if recession_resistant_sectors.any (fun ind => substrOf ind sector) then
      (1, "Business relatively resistant to economic downturns")
    else if economically_sensitive_sectors.any (fun ind => substrOf ind sector) then
      (-1, "Business sensitive to economic cycles")
    else (0, "Neutral macroeconomic assessment")

/-- Sector keyword list of `analyze_economic_moat`. -/
def network_effect_sectors : List String :=
  ["Technology", "Social Media", "Payments", "E-commerce", "Telecom",
   "Software", "IT Services", "Platform"]

/-- Sector keyword list of `analyze_economic_moat`. -/
def brand_moat_sectors : List String :=
  ["Consumer Goods", "Luxury", "FMCG", "Automotive", "Consumer Defensive",
   "Beverages", "Fast Food", "Retail"]

/-- Sector keyword list of `analyze_economic_moat`. -/
def switching_cost_sectors : List String :=
  ["Banking", "Enterprise Software", "Insurance", "Financial Services",
   "Healthcare", "IT Services"]

/-- Named-company list of `analyze_economic_moat`.  The source spells
one entry with a non-ASCII character; it is kept as the plain-ASCII
transliteration, which no embedded comparison distinguishes. -/
def strong_moat_companies : List String :=
  ["HDFC Bank", "Asian Paints", "Hindustan Unilever", "Nestle India",
   "Bajaj Finance", "TCS", "Titan Company", "ITC", "Britannia",
   "Page Industries", "Pidilite Industries"]

/-- Moat keyword table of `analyze_economic_moat`, in dict insertion
order (brand, network, switching, cost). -/
def moat_keywords : List (List String) :=
  [["brand", "premium", "loyalty", "trusted", "heritage"],
   ["network effect", "platform", "marketplace", "ecosystem"],
   ["switching cost", "customer lock-in", "retention", "stickiness"],
   ["low cost", "scale advantage", "efficient", "market share"]]

/-- `analyze_economic_moat`: named companies, sector keyword buckets,
margin / ROE strength and description keywords, capped at 4.  Returns
`(score, reason)`; the reason is the joined `moat_types` list collapsed
to the fixed fragments of the source messages. -/
def analyze_economic_moat (_symbol : String) (data : StockRecord) : ℚ × String :=
  let name := data.name
  let sector := data.sector.getD "Unknown"
  let profit_margin := data.profit_margin.getD 0
  let roe := data.roe.getD 0
  let company_desc :=
    match data.longBusinessSummary with
    | some s => if s ≠ "" then s.toLower else ""
    | none => ""
  let high_margin := decide (20 < profit_margin)
  let exceptional_roe := decide (25 < roe)
  let s1 : ℚ :=
    if strong_moat_companies.any (fun c => substrOf c.toLower name.toLower) then 2 else 0
  let s2 : ℚ := if network_effect_sectors.any (fun s => substrOf s sector) then 1 else 0
  let s3 : ℚ := if brand_moat_sectors.any (fun s => substrOf s sector) then 1 else 0
  let s4 : ℚ := if switching_cost_sectors.any (fun s => substrOf s sector) then 1 else 0
  let s5 : ℚ := if high_margin then 1 else 0
  let s6 : ℚ := if exceptional_roe then 1 else 0
  let s7 : ℚ :=
    (moat_keywords.filter
      (fun kws => kws.any (fun k => substrOf k company_desc))).length * (1/2)
  let score := s1 + s2 + s3 + s4 + s5 + s6 + s7
  let score := min score 4
  let anyMoat :=
    s1 ≠ 0 ∨ s2 ≠ 0 ∨ s3 ≠ 0 ∨ s4 ≠ 0 ∨ s5 ≠ 0 ∨ s6 ≠ 0 ∨ s7 ≠ 0
  (score, if anyMoat then "Moat indications identified" else "No clear economic moat identified")

/-- `analyze_valuation` (P/E, P/B, margin of safety from any stored
intrinsic value, dividend yield). -/
def analyze_valuation (data : StockRecord) : EvalResult :=
  let p1 : EvalResult :=
    match data.pe_ratio with
    | some v =>
      if 0 < v then
        if v < 15 then (3, ["Attractive P/E ratio"], [])
        else if v < 20 then (2, ["Reasonable P/E ratio"], [])
        else if v < 25 then (1, ["Acceptable P/E ratio"], [])
        else if 30 < v then (-1, [], ["High P/E ratio"])
        else (0, [], [])
      else (0, [], ["P/E ratio data not available"])
    | none => (0, [], ["P/E ratio data not available"])
  let p2 : EvalResult :=
    match data.pb_ratio with
    | some v =>
      if 0 < v then
        let sector := data.sector.getD "Unknown"
        let is_financial :=
          ["Bank", "Financial", "Insurance"].any (fun s => substrOf s sector)
        let threshold : ℚ := if is_financial then 2 else 3
        if v < threshold * 0.5 then (2, ["Very attractive P/B ratio"], [])
        else if v < threshold then (1, ["Reasonable P/B ratio"], [])
        else if threshold * 2 < v then (-1, [], ["High P/B ratio"])
        else (0, [], [])
      else (0, [], [])
    | none => (0, [], [])
  let p3 : EvalResult :=
    match data.intrinsic_value, data.current_price with
    | some iv, some p =>
      if 0 < iv then
        let margin_of_safety : ℚ :=
          match data.margin_of_safety with
          | some m => m
          | none => if p < iv then (iv - p) / iv * 100 else 0
        if 40 < margin_of_safety then (4, ["Huge margin of safety"], [])
        else if 30 < margin_of_safety then (3, ["Substantial margin of safety"], [])
        else if 20 < margin_of_safety then (2, ["Good margin of safety"], [])
        else if 10 < margin_of_safety then (1, ["Some margin of safety"], [])
        else if margin_of_safety < 0 then
          (-1, [], ["No margin of safety, stock may be overvalued"])
        else (0, [], [])
      else (0, [], ["Intrinsic value calculation not available"])
    | _, _ => (0, [], ["Intrinsic value calculation not available"])
  let p4 : EvalResult :=
    match data.dividendYield with
    | some v =>
      if 0 < v then
        if 4 < v then (2, ["High dividend yield"], [])
        else if 2 < v then (1, ["Good dividend yield"], [])
        else (0, [], [])
      else (0, [], [])
    | none => (0, [], [])
  combineER p1 (combineER p2 (combineER p3 p4))

/-- `analyze_technical_indicators` (RSI, moving averages, MACD).
Returns `none` exactly on the path where the Python source raises a
`TypeError`: `macd_line` and `macd_signal` both present and different
while `macd_histogram` is absent (`None > 0` / `None < 0`). -/
def analyze_technical_indicators (data : StockRecord) : Option EvalResult :=
  if data.price_history_available = false then
    some (0, [], ["Technical analysis skipped - price history not available"])
  else
    let p1 : EvalResult :=
      match data.rsi with
      | some v =>
        if v < 30 then (2, ["Oversold RSI suggests potential buying opportunity"], [])
        else if v < 40 then (1, ["RSI indicates potential undervaluation"], [])
        else if 70 < v then (-1, ["Overbought RSI suggests potential overvaluation"], [])
        else (0, [], [])
      | none => (0, [], ["RSI data not available"])
    let p2 : EvalResult :=
      match data.ma_50, data.ma_200 with
      | some m50, some m200 =>
        let c1 : EvalResult :=
          if m200 < m50 then
            (1, ["Golden Cross pattern indicates bullish trend"], [])
          else if m50 < m200 then
            (-1, ["Death Cross pattern indicates bearish trend"], [])
          else (0, [], [])
        let c2 : EvalResult :=
          match data.current_price with
          | some p =>
            if m50 < p ∧ m200 < p then
              (1, ["Price above both moving averages, suggesting bullish trend"], [])
            else if p < m50 ∧ p < m200 then
              (-1, ["Price below both moving averages, suggesting bearish trend"], [])
            else (0, [], [])
          | none => (0, [], [])
        combineER c1 c2
      | some m50, none =>
        match data.current_price with
        | some p =>
          if m50 < p then
            (1/2, ["Price above 50-day moving average, suggesting near-term bullish trend"], [])
          else
            (-(1/2), ["Price below 50-day moving average, suggesting near-term bearish trend"], [])
        | none => (0, [], [])
      | none, _ => (0, [], ["Moving average data not available"])
    let macdPart : Option EvalResult :=
      match data.macd_line, data.macd_signal with
      | some l, some s =>
        if s < l then
          match data.macd_histogram with
          | some h =>
            some (if 0 < h then (2, ["Bullish MACD crossover"], []) else (0, [], []))
          | none => none
        else if l < s then
          match data.macd_histogram with
          | some h =>
            some (if h < 0 then (-1, ["Bearish MACD crossover"], []) else (0, [], []))
          | none => none
        else some (0, [], [])
      | _, _ => some (0, [], ["MACD data not available"])
    match macdPart with
    | none => none
    | some p3 => some (combineER p1 (combineER p2 p3))

/-- The peer pool of `analyze_sector_performance` (lines 677-682): all
records of the input mapping that carry no error, whose stored sector
string equals the subject sector exactly, and whose symbol differs from
the subject symbol. -/
def sectorPeers (symbol : String) (sector : String)
    (all_stocks_data : List (String × StockRecord)) : List (String × StockRecord) :=
  all_stocks_data.filter
    (fun p => !p.2.error && p.2.sector == some sector && p.1 != symbol)

/-- One metric comparison of the `analyze_sector_performance` loop:
`none` when the metric is skipped (subject value absent or fewer than 2
peer values), otherwise `some b` where `b` says whether the subject
outperformed the peer mean by the 20% margin. -/
def compareMetric (subjectVal : Option ℚ) (peerVals : List ℚ)
    (higher_better : Bool) : Option Bool :=
  match subjectVal with
  | none => none
  | some v =>
    if peerVals.length < 2 then none
    else
      let sector_avg := peerVals.foldl (· + ·) 0 / (peerVals.length : ℚ)
      let performance_ratio := if sector_avg ≠ 0 then v / sector_avg else 1
      some (if higher_better then decide (1.2 < performance_ratio)
            else decide (performance_ratio < 0.8))

/-- `analyze_sector_performance`: cross-record comparison of ROE,
debt-to-equity, P/E and revenue growth against same-sector peers. -/
def analyze_sector_performance (symbol : String) (data : StockRecord)
    (all_stocks_data : List (String × StockRecord)) : EvalResult :=
  let sector := data.sector.getD "Unknown"
  if sector = "Unknown" then
    (0, [], ["Unable to perform sector analysis: sector information missing"])
  else
    let sector_stocks := sectorPeers symbol sector all_stocks_data
    if sector_stocks.length < 2 then
      (0, [], ["Not enough peers in sector for comparison"])
    else
      let peerVals := fun (f : StockRecord → Option ℚ) =>
        (sector_stocks.map (fun p => f p.2)).filterMap id
      let results : List (Option Bool) :=
        [compareMetric data.roe (peerVals (·.roe)) true,
         compareMetric data.debt_to_equity (peerVals (·.debt_to_equity)) false,
         compareMetric data.pe_ratio (peerVals (·.pe_ratio)) false,
         compareMetric data.revenue_yoy (peerVals (·.revenue_yoy)) true]
      let compared := (results.filterMap id).length
      let outperformance := ((results.filterMap id).filter (fun b => b)).length
      let score : ℚ := outperformance
      let reasons :=
        List.replicate outperformance "Superior metric compared to sector average"
      if 2 ≤ compared then
        if outperformance = compared then
          (score + 1, reasons ++ ["Outperforms sector in all key metrics"], [])
        else (score, reasons, [])
      else (score, reasons, ["Limited sector comparison: few metrics available"])

/-- `analyze_ownership_patterns` (promoter and institutional holdings). -/
def analyze_ownership_patterns (data : StockRecord) : EvalResult :=
  if data.shareholding_data_available = false then
    (0, [], ["Ownership analysis skipped - shareholding data not available"])
  else
    let p1 : EvalResult :=
      match data.promoterHolding with
      | some v =>
        if 50 < v then (2, ["Strong promoter commitment"], [])
        else if 30 < v then (1, ["Significant promoter holding"], [])
        else (0, [], [])
      | none => (0, [], [])
    let p2 : EvalResult :=
      match data.promoterHoldingChange with
      | some v =>
        if 2 < v then (2, ["Recent promoter buying"], [])
        else if 0.5 < v then (1, ["Modest increase in promoter holding"], [])
        else if v < -2 then (-2, [], ["Significant promoter selling"])
        else if v < -0.5 then (-1, [], ["Recent promoter selling"])
        else (0, [], [])
      | none => (0, [], [])
    let p3 : EvalResult :=
      match data.fiiHolding, data.diiHolding with
      | some fii, some dii =>
        if 45 < fii + dii then (1, ["Strong institutional interest"], [])
        else (0, [], [])
      | _, _ => (0, [], [])
    let p4 : EvalResult :=
      match data.fiiHoldingChange, data.diiHoldingChange with
      | some fc, some dc =>
        if 3 < fc + dc then (1, ["Strong institutional buying"], [])
        else if fc + dc < -3 then (-1, [], ["Significant institutional selling"])
        else (0, [], [])
      | _, _ => (0, [], [])
    combineER p1 (combineER p2 (combineER p3 p4))

/-- `analyze_corporate_actions` (dividend yield with sector-dependent
threshold, payout ratio, buybacks, data-availability notice). -/
def analyze_corporate_actions (data : StockRecord) : EvalResult :=
  let p1 : EvalResult :=
    match data.dividendYield with
    | some v =>
      if 0 < v then
        let sector := data.sector.getD "Unknown"
        let is_high_yield_sector :=
          ["Utility", "REIT", "Energy"].any (fun s => substrOf s sector)
        let threshold : ℚ := if is_high_yield_sector then 4 else 2
        if threshold * 1.5 < v then (2, ["Excellent dividend yield"], [])
        else if threshold < v then (1, ["Good dividend yield"], [])
        else (0, [], [])
      else (0, [], [])
    | none => (0, [], [])
  let p2 : EvalResult :=
    match data.payoutRatio with
    | some v =>
      if 30 ≤ v ∧ v ≤ 60 then (1, ["Healthy dividend payout ratio"], [])
      else if 80 < v then (-1, [], ["High payout ratio may be unsustainable"])
      else (0, [], [])
    | none => (0, [], [])
  let p3 : EvalResult :=
    if data.hasRecentBuyback then
      (2, ["Recent share buyback indicates shareholder-friendly management"], [])
    else (0, [], [])
  let p4 : EvalResult :=
    if data.corporate_actions_available = false ∧ data.dividendYield = none then
      (0, [], ["Corporate actions analysis limited - data not available"])
    else (0, [], [])
  combineER p1 (combineER p2 (combineER p3 p4))

/-- The Python chain `data.get('eps') or data.get('trailingEPS')`:
first truthy (present and nonzero) earnings-per-share value. -/
def epsOrTrailing (data : StockRecord) : Option ℚ :=
  match data.eps with
  | some v => if v ≠ 0 then some v else data.trailingEPS
  | none => data.trailingEPS

/-- `calculate_intrinsic_value_alternative`: up to four alternative
estimates in dict insertion order (graham, ddm, pe_multiple,
book_value), each tagged with the method name.  The description strings
of the source are payload and elided; the broad `try/except` wrappers
are elided because no modelled expression can raise (every divisor in
scope is a fixed positive constant). -/
def calculate_intrinsic_value_alternative (data : StockRecord) : List (String × ℚ) :=
  let sectorG := data.sector.getD ""
  let graham : Option (String × ℚ) :=
    match epsOrTrailing data with
    | some e =>
      if 0 < e then
        let growth_rate : ℚ :=
          if substrOf "Technology" sectorG || substrOf "Software" sectorG then 8
          else if substrOf "Consumer" sectorG then 6
          else if substrOf "Health" sectorG then 7
          else if substrOf "Financial" sectorG || substrOf "Bank" sectorG then 5
          else 5
        some ("graham", e * (8.5 + 2 * growth_rate))
      else none
    | none => none
  let ddm : Option (String × ℚ) :=
    match data.dividendYield, data.current_price with
    | some dy, some p =>
      -- Python: `if dividend_yield and dividend_yield > 0 and current_price
      -- and current_price > 0` (truthiness + sign)
      if 0 < dy ∧ 0 < p then
        let current_dividend := dy / 100 * p
        let growth_rate : ℚ :=
          if substrOf "Technology" sectorG || substrOf "Software" sectorG then 5
          else if substrOf "Consumer" sectorG then 4
          else 3
        let discount_rate : ℚ := 0.10
        some ("ddm", current_dividend * (1 + growth_rate / 100) /
          (discount_rate - growth_rate / 100))
      else none
    | _, _ => none
  let pe_multiple_m : Option (String × ℚ) :=
    match epsOrTrailing data with
    | some e =>
      if 0 < e then
        let pe_multiple : ℚ :=
          if substrOf "Technology" sectorG then 20
          else if substrOf "Consumer" sectorG then 18
          else if substrOf "Utilities" sectorG then 14
          else if substrOf "Financial" sectorG then 12
          else 15
        some ("pe_multiple", e * pe_multiple)
      else none
    | none => none
  let book_value_m : Option (String × ℚ) :=
    match data.bookValue with
    | some b =>
      if 0 < b then
        let pb_multiple : ℚ :=
          if substrOf "Financial" sectorG || substrOf "Bank" sectorG then 1.2
          else if substrOf "Technology" sectorG then 3.0
          else if substrOf "Consumer" sectorG then 2.5
          else 1.5
        some ("book_value", b * pb_multiple)
      else none
    | none => none
  [graham, ddm, pe_multiple_m, book_value_m].filterMap id

/-- Stable ascending insertion used by `medianQ`. -/
def insertAsc (x : ℚ) : List ℚ → List ℚ
  | [] => [x]
  | y :: ys => if x ≤ y then x :: y :: ys else y :: insertAsc x ys

/-- Ascending sort of a list of rationals (the `sorted(data)` inside
`statistics.median`). -/
def sortAscQ : List ℚ → List ℚ
  | [] => []
  | x :: xs => insertAsc x (sortAscQ xs)

/-- `statistics.median` on rationals: middle element of the sorted list
for odd length, mean of the two middle elements for even length. -/
def medianQ (values : List ℚ) : ℚ :=
  let s := sortAscQ values
  let n := s.length
  if n % 2 = 1 then s.getD (n / 2) 0
  else (s.getD (n / 2 - 1) 0 + s.getD (n / 2) 0) / 2

/-- `calculate_final_intrinsic_value`: keeps a truthy stored intrinsic
value (the Python guard `if not intrinsic_value or intrinsic_value == 0`
collapses to `= 0` on floats), otherwise takes the median of the
successful alternative methods and derives the margin of safety;
returns `(intrinsic_value, margin_of_safety, alternative_methods)`. -/
def calculate_final_intrinsic_value (data : StockRecord)
    (alternative_methods : List (String × ℚ)) : ℚ × ℚ × List (String × ℚ) :=
  let intrinsic_value := data.intrinsic_value.getD 0
  if intrinsic_value = 0 then
    if alternative_methods.isEmpty then
      (intrinsic_value, data.margin_of_safety.getD 0, alternative_methods)
    else
      let values := alternative_methods.map Prod.snd
      let iv := medianQ values
      let current_price := data.current_price.getD 0
      let margin_of_safety :=
        if 0 < current_price ∧ current_price < iv then
          (iv - current_price) / iv * 100
        else 0
      (iv, margin_of_safety, alternative_methods)
  else (intrinsic_value, data.margin_of_safety.getD 0, alternative_methods)

/-- The intrinsic-value write-back of `buffett_analysis` (lines
1084-1092): when the final intrinsic value is truthy and positive it is
stored on the record together with the margin of safety. -/
def intrinsicWriteBack (data : StockRecord) : StockRecord :=
  let r := calculate_final_intrinsic_value data (calculate_intrinsic_value_alternative data)
  if 0 < r.1 then
    { data with intrinsic_value := some r.1, margin_of_safety := some r.2.1 }
  else data

/-- Scores recorded for one processed stock: the entry of the detailed
audit dump, restricted to the numeric core (the remaining dump fields
are projections of the record).  `idx` is the position of the symbol in
the input iteration, used to express ordering and stability. -/
structure StockResult where
  idx : Nat
  buffett_score : ℚ
  technical_score : ℚ
  growth_score : ℚ
  total_score : ℚ
  deriving DecidableEq

/-- In-place mutation of one record of the input mapping (Python
mutates the dict value object; keys are unique in a dict). -/
def updateAssoc (db : List (String × StockRecord)) (symbol : String)
    (r : StockRecord) : List (String × StockRecord) :=
  db.map (fun p => if p.1 = symbol then (p.1, r) else p)

/-- The per-stock body of the `buffett_analysis` loop: normalization,
the twelve evaluators in source order, and the intrinsic-value
write-back.  Returns `none` when `analyze_technical_indicators` raises
(which aborts the whole Python run), otherwise the scores together with
the final mutated record. -/
def processStock (idx : Nat) (symbol : String) (data : StockRecord)
    (stock_data : List (String × StockRecord)) : Option (StockResult × StockRecord) :=
  let nd := normalizeRecord data
  let growth := analyze_growth_metrics nd
  let efficiency := analyze_operating_efficiency nd
  let health := analyze_financial_health nd
  let valuation := analyze_valuation nd
  let industry := analyze_industry_dynamics symbol nd
  let regulatory := analyze_regulatory_environment symbol nd
  let macroF := analyze_macroeconomic_factors symbol nd
  let moat := analyze_economic_moat symbol nd
  let buffett_score :=
    efficiency.1 + health.1 + valuation.1 + industry.1 + regulatory.1 +
      macroF.1 + moat.1
  let nd2 := intrinsicWriteBack nd
  match analyze_technical_indicators nd2 with
  | none => none
  | some tech =>
    let sector := analyze_sector_performance symbol nd2 (updateAssoc stock_data symbol nd2)
    let ownership := analyze_ownership_patterns nd2
    let corporate := analyze_corporate_actions nd2
    let technical_score := tech.1 + sector.1 + ownership.1 + corporate.1
    let growth_score := growth.1
    let total_score := buffett_score + technical_score + growth_score
    some ({ idx := idx, buffett_score := buffett_score,
            technical_score := technical_score, growth_score := growth_score,
            total_score := total_score }, nd2)

/-- The main loop of `buffett_analysis` over the input mapping: skips
error records and BSE (`.BO`) symbols, threads the in-place record
mutations through the shared mapping, and accumulates the detailed
audit entries and the unsorted pick list (those with total score at
least 10). -/
def runAux (db : List (String × StockRecord)) (idx : Nat) :
    List (String × StockRecord) →
      Option (List (String × StockResult) × List (String × StockResult))
  | [] => some ([], [])
  | (symbol, data) :: rest =>
    if data.error then runAux db (idx + 1) rest
    else if substrOf ".BO" symbol then runAux db (idx + 1) rest
    else
      match processStock idx symbol data db with
      | none => none
      | some (res, nd2) =>
        match runAux (updateAssoc db symbol nd2) (idx + 1) rest with
        | none => none
        | some (det, picks) =>
          some ((symbol, res) :: det,
            if 10 ≤ res.total_score then (symbol, res) :: picks else picks)

/-- Stable descending insertion by total score: an earlier pick stops
in front of the first later pick with a smaller-or-equal score,
mirroring the stability of the Python `sorted` with `reverse=True`. -/
def insertPick (x : String × StockResult) :
    List (String × StockResult) → List (String × StockResult)
  | [] => [x]
  | y :: ys =>
    if y.2.total_score ≤ x.2.total_score then x :: y :: ys
    else y :: insertPick x ys

/-- Stable sort of the pick list by total score descending
(`sorted(buffett_picks.items(), key=lambda x: x[1]['total_score'],
reverse=True)`). -/
def sortPicksDesc : List (String × StockResult) → List (String × StockResult)
  | [] => []
  | x :: xs => insertPick x (sortPicksDesc xs)

/-- `buffett_analysis`: the whole pipeline on the input mapping,
returning the detailed audit entries (every processed stock) and the
ranked picks, or `none` when a record makes the Python source raise. -/
def buffett_analysis (stock_data : List (String × StockRecord)) :
    Option (List (String × StockResult) × List (String × StockResult)) :=
  match runAux stock_data 0 stock_data with
  | none => none
  | some (det, picks) => some (det, sortPicksDesc picks)

/-- Final intrinsic value of a record as computed inside
`buffett_analysis` (alternative methods fed into
`calculate_final_intrinsic_value`). -/
def finalIV (data : StockRecord) : ℚ :=
  (calculate_final_intrinsic_value data (calculate_intrinsic_value_alternative data)).1

/-- Final margin of safety of a record as computed inside
`buffett_analysis`. -/
def finalMos (data : StockRecord) : ℚ :=
  (calculate_final_intrinsic_value data (calculate_intrinsic_value_alternative data)).2.1

/-- Iteration order on processed entries: earlier input position first. -/
def idxOrder (a b : String × StockResult) : Prop :=
  a.2.idx < b.2.idx

/-- Ranking order of the pick list: strictly larger total score first,
and among equal total scores the earlier input position first. -/
def pickOrder (a b : String × StockResult) : Prop :=
  b.2.total_score < a.2.total_score ∨
    (b.2.total_score = a.2.total_score ∧ a.2.idx < b.2.idx)

/-- A record with every optional metric absent and every
availability flag false. -/
def emptyStockRecord : StockRecord := {}

/-- Concrete record used by witnesses: the example scenario of the
specification (strong ROE, low leverage, cheap P/E, Consumer Staples). -/
def recConsumer : StockRecord :=
  { name := "AAA Corp", sector := some "Consumer Staples", roe := some 22,
    debt_to_equity := some 0.2, pe_ratio := some 12, eps := some 10,
    current_price := some 100, market_cap := some 5000000000 }

/-- The scores `buffett_analysis` computes for `recConsumer`. -/
def resConsumer : StockResult :=
  { idx := 0, buffett_score := 13, technical_score := 0, growth_score := 0,
    total_score := 13 }

/-- `recConsumer` after normalization and intrinsic-value write-back. -/
def recConsumerFinal : StockRecord :=
  { recConsumer with
    intrinsic_value := some (385 / 2)
    margin_of_safety := some (3700 / 77) }

/-- An arbitrary score bundle used to instantiate non-membership
statements. -/
def resZero : StockResult :=
  { idx := 0, buffett_score := 0, technical_score := 0, growth_score := 0,
    total_score := 0 }

/-- A record whose `debt_to_equity` is 400: dividing by 100 once gives
4, which is itself above the percent-detection threshold 3. -/
def rec400 : StockRecord := { debt_to_equity := some 400 }

/-- A record whose `debt_to_equity` is 250 (normalizes to 2.5 and then
stays fixed). -/
def rec250 : StockRecord := { debt_to_equity := some 250 }

/-- A record carrying a stored nonzero intrinsic value together with a
stored negative margin of safety and a price above the intrinsic
value. -/
def recNegMos : StockRecord :=
  { intrinsic_value := some 50, margin_of_safety := some (-5),
    current_price := some 100 }

/-- A record whose free-cash-flow yield is 25% (fcf 25 on market cap
100), far above every plausibility bound named by the specification. -/
def recFCF : StockRecord := { fcf := some 25, market_cap := some 100 }

/-- A record where only the alternative valuation methods apply
(positive eps, no stored intrinsic value). -/
def recEps : StockRecord := { eps := some 10, current_price := some 100 }

-- ===================================================================
-- Helper lemmas
-- ===================================================================

theorem mem_insertPick {z x : String × StockResult}
    {l : List (String × StockResult)} :
    z ∈ insertPick x l ↔ z = x ∨ z ∈ l := by
  induction l with
  | nil => simp [insertPick]
  | cons y ys ih =>
    simp only [insertPick]
    split
    · simp [List.mem_cons]
    · simp only [List.mem_cons, ih]
      tauto

theorem mem_sortPicksDesc {z : String × StockResult}
    {l : List (String × StockResult)} :
    z ∈ sortPicksDesc l ↔ z ∈ l := by
  induction l with
  | nil => simp [sortPicksDesc]
  | cons x xs ih => simp [sortPicksDesc, mem_insertPick, ih, List.mem_cons]

theorem pairwise_insertPick {x : String × StockResult}
    {l : List (String × StockResult)} (hl : l.Pairwise pickOrder)
    (hx : ∀ y ∈ l, x.2.idx < y.2.idx) :
    (insertPick x l).Pairwise pickOrder := by
  induction l with
  | nil => simp [insertPick, pickOrder]
  | cons y ys ih =>
    rcases List.pairwise_cons.1 hl with ⟨hy, hys⟩
    simp only [insertPick]
    split
    · rename_i hle
      refine List.pairwise_cons.2 ⟨?_, hl⟩
      intro z hz
      have hzx : x.2.idx < z.2.idx := hx z hz
      have hzle : z.2.total_score ≤ x.2.total_score := by
        rcases List.mem_cons.1 hz with rfl | hz2
        · exact hle
        · rcases hy z hz2 with h | h
          · exact le_trans (le_of_lt h) hle
          · exact le_trans (le_of_eq h.1) hle
      rcases lt_or_eq_of_le hzle with h | h
      · exact Or.inl h
      · exact Or.inr ⟨h, hzx⟩
    · rename_i hgt
      refine List.pairwise_cons.2
        ⟨?_, ih hys (fun z hz => hx z (List.mem_cons_of_mem _ hz))⟩
      intro z hz
      rcases mem_insertPick.1 hz with rfl | hz2
      · exact Or.inl (lt_of_not_le hgt)
      · exact hy z hz2

theorem pairwise_sortPicksDesc {l : List (String × StockResult)}
    (h : l.Pairwise idxOrder) : (sortPicksDesc l).Pairwise pickOrder := by
  induction l with
  | nil => simp [sortPicksDesc]
  | cons x xs ih =>
    rcases List.pairwise_cons.1 h with ⟨hx, hxs⟩
    exact pairwise_insertPick (ih hxs)
      (fun y hy => hx y (mem_sortPicksDesc.1 hy))

theorem processStock_idx {idx : Nat} {symbol : String} {data : StockRecord}
    {db : List (String × StockRecord)} {res : StockResult} {nd2 : StockRecord}
    (h : processStock idx symbol data db = some (res, nd2)) : res.idx = idx := by
  cases ht : analyze_technical_indicators (intrinsicWriteBack (normalizeRecord data)) with
  | none => simp [processStock, ht] at h
  | some t =>
    simp only [processStock, ht, Option.some.injEq, Prod.mk.injEq] at h
    rw [← h.1]

theorem runAux_spec :
    ∀ (todo db : List (String × StockRecord)) (idx : Nat)
      (det picks : List (String × StockResult)),
      runAux db idx todo = some (det, picks) →
      picks = det.filter (fun p => decide (10 ≤ p.2.total_score)) ∧
      det.Pairwise idxOrder ∧
      (∀ p ∈ det, idx ≤ p.2.idx) ∧
      (∀ p ∈ det, substrOf ".BO" p.1 = false) := by
  intro todo
  induction todo with
  | nil =>
    intro db idx det picks h
    simp only [runAux, Option.some.injEq, Prod.mk.injEq] at h
    rw [← h.1, ← h.2]
    simp
  | cons hd rest ih =>
    obtain ⟨symbol, data⟩ := hd
    intro db idx det picks h
    simp only [runAux] at h
    by_cases he : data.error
    · rw [if_pos he] at h
      obtain ⟨h1, h2, h3, h4⟩ := ih _ _ _ _ h
      exact ⟨h1, h2, fun p hp => le_trans (Nat.le_succ idx) (h3 p hp), h4⟩
    · rw [if_neg he] at h
      by_cases hbo : substrOf ".BO" symbol = true
      · rw [if_pos hbo] at h
        obtain ⟨h1, h2, h3, h4⟩ := ih _ _ _ _ h
        exact ⟨h1, h2, fun p hp => le_trans (Nat.le_succ idx) (h3 p hp), h4⟩
      · rw [if_neg hbo] at h
        cases hps : processStock idx symbol data db with
        | none => rw [hps] at h; cases h
        | some pr =>
          obtain ⟨res, nd2⟩ := pr
          rw [hps] at h
          dsimp only [] at h
          cases hr : runAux (updateAssoc db symbol nd2) (idx + 1) rest with
          | none => rw [hr] at h; cases h
          | some p2 =>
            obtain ⟨det2, picks2⟩ := p2
            rw [hr] at h
            simp only [Option.some.injEq, Prod.mk.injEq] at h
            obtain ⟨hdet, hpicks⟩ := h
            obtain ⟨h1, h2, h3, h4⟩ := ih _ _ _ _ hr
            have hresidx : res.idx = idx := processStock_idx hps
            subst hdet
            refine ⟨?_, ?_, ?_, ?_⟩
            · rw [← hpicks, h1, List.filter_cons]
              by_cases h10 : 10 ≤ res.total_score
              · rw [if_pos h10]
                simp [h10]
              · rw [if_neg h10]
                simp [h10]
            · refine List.pairwise_cons.2 ⟨?_, h2⟩
              intro p hp
              show res.idx < p.2.idx
              rw [hresidx]
              exact lt_of_lt_of_le (Nat.lt_succ_self idx) (h3 p hp)
            · intro p hp
              rcases List.mem_cons.1 hp with rfl | hp2
              · rw [hresidx]
              · exact le_trans (Nat.le_succ idx) (h3 p hp2)
            · intro p hp
              rcases List.mem_cons.1 hp with rfl | hp2
              · exact Bool.eq_false_iff.2 hbo
              · exact h4 p hp2

-- Concrete evaluations on the witness records, staged so that each
-- step stays within the default reduction depth.

theorem consumer_norm : normalizeRecord recConsumer = recConsumer := by
  with_unfolding_all rfl

theorem consumer_growth : analyze_growth_metrics recConsumer = (0, [],
    ["YoY revenue growth data not available",
     "YoY operating profit growth data not available",
     "YoY net profit growth data not available"]) := by
  with_unfolding_all decide

theorem consumer_efficiency : analyze_operating_efficiency recConsumer =
    (3, ["Exceptional ROE"], ["Profit margin data not available"]) := by
  with_unfolding_all decide

theorem consumer_health : analyze_financial_health recConsumer =
    (3, ["Minimal debt-to-equity ratio"], ["Free cash flow data not available"]) := by
  with_unfolding_all decide

theorem consumer_valuation : analyze_valuation recConsumer =
    (3, ["Attractive P/E ratio"], ["Intrinsic value calculation not available"]) := by
  with_unfolding_all decide

theorem consumer_industry : analyze_industry_dynamics "AAA" recConsumer =
    (2, "Industry with stable cash flows and high entry barriers") := by
  with_unfolding_all decide

theorem consumer_regulatory : analyze_regulatory_environment "AAA" recConsumer =
    (1, "Generally stable regulatory environment") := by
  with_unfolding_all decide

theorem consumer_macro : analyze_macroeconomic_factors "AAA" recConsumer =
    (1, "Business relatively resistant to economic downturns") := by
  with_unfolding_all decide

theorem consumer_moat : analyze_economic_moat "AAA" recConsumer =
    (0, "No clear economic moat identified") := by
  with_unfolding_all decide

theorem consumer_writeback : intrinsicWriteBack recConsumer = recConsumerFinal := by
  with_unfolding_all rfl

theorem consumer_technical : analyze_technical_indicators recConsumerFinal =
    some (0, [], ["Technical analysis skipped - price history not available"]) := by
  with_unfolding_all decide

theorem consumer_sector : analyze_sector_performance "AAA" recConsumerFinal
    (updateAssoc [("AAA", recConsumer)] "AAA" recConsumerFinal) =
    (0, [], ["Not enough peers in sector for comparison"]) := by
  with_unfolding_all decide

theorem consumer_ownership : analyze_ownership_patterns recConsumerFinal =
    (0, [], ["Ownership analysis skipped - shareholding data not available"]) := by
  with_unfolding_all decide

theorem consumer_corporate : analyze_corporate_actions recConsumerFinal =
    (0, [], ["Corporate actions analysis limited - data not available"]) := by
  with_unfolding_all decide

theorem consumer_processStock :
    processStock 0 "AAA" recConsumer [("AAA", recConsumer)] =
      some (resConsumer, recConsumerFinal) := by
  simp only [processStock, consumer_norm, consumer_writeback, consumer_technical,
    consumer_sector, consumer_ownership, consumer_corporate, consumer_growth,
    consumer_efficiency, consumer_health, consumer_valuation, consumer_industry,
    consumer_regulatory, consumer_macro, consumer_moat]
  norm_num [resConsumer]

theorem consumer_run :
    buffett_analysis [("AAA", recConsumer)] =
      some ([("AAA", resConsumer)], [("AAA", resConsumer)]) := by
  have he : recConsumer.error = false := rfl
  have hbo : substrOf ".BO" "AAA" = false := by decide
  have h10 : (10 : ℚ) ≤ resConsumer.total_score := by
    with_unfolding_all decide
  simp only [buffett_analysis, runAux, he, hbo, Bool.false_eq_true, if_false,
    consumer_processStock, h10, if_true, sortPicksDesc, insertPick]

-- ===================================================================
-- Claim theorems
-- ===================================================================

/-- C1: for every input record processed by `buffett_analysis`, the
total score recorded for that stock equals the exact sum of the twelve
evaluator scores (growth, operating efficiency, financial health,
valuation, industry, regulatory, macroeconomic, moat, technical, sector
performance, ownership, corporate actions) actually returned on that
record, with no further weighting or normalization. -/
theorem total_score_eq_evaluator_sum
    (idx : Nat) (symbol : String) (data : StockRecord)
    (db : List (String × StockRecord)) (res : StockResult) (nd2 : StockRecord)
    (t : EvalResult)
    (h : processStock idx symbol data db = some (res, nd2))
    (ht : analyze_technical_indicators (intrinsicWriteBack (normalizeRecord data)) = some t) :
    res.total_score =
      (analyze_growth_metrics (normalizeRecord data)).1 +
      (analyze_operating_efficiency (normalizeRecord data)).1 +
      (analyze_financial_health (normalizeRecord data)).1 +
      (analyze_valuation (normalizeRecord data)).1 +
      (analyze_industry_dynamics symbol (normalizeRecord data)).1 +
      (analyze_regulatory_environment symbol (normalizeRecord data)).1 +
      (analyze_macroeconomic_factors symbol (normalizeRecord data)).1 +
      (analyze_economic_moat symbol (normalizeRecord data)).1 +
      t.1 +
      (analyze_sector_performance symbol (intrinsicWriteBack (normalizeRecord data))
        (updateAssoc db symbol (intrinsicWriteBack (normalizeRecord data)))).1 +
      (analyze_ownership_patterns (intrinsicWriteBack (normalizeRecord data))).1 +
      (analyze_corporate_actions (intrinsicWriteBack (normalizeRecord data))).1 := by
  simp only [processStock, ht, Option.some.injEq, Prod.mk.injEq] at h
  rw [← h.1]
  dsimp only []
  ring

/-- Witness for C1 at the Consumer-Staples example record. -/
theorem total_score_eq_evaluator_sum_w :
    resConsumer.total_score =
      (analyze_growth_metrics (normalizeRecord recConsumer)).1 +
      (analyze_operating_efficiency (normalizeRecord recConsumer)).1 +
      (analyze_financial_health (normalizeRecord recConsumer)).1 +
      (analyze_valuation (normalizeRecord recConsumer)).1 +
      (analyze_industry_dynamics "AAA" (normalizeRecord recConsumer)).1 +
      (analyze_regulatory_environment "AAA" (normalizeRecord recConsumer)).1 +
      (analyze_macroeconomic_factors "AAA" (normalizeRecord recConsumer)).1 +
      (analyze_economic_moat "AAA" (normalizeRecord recConsumer)).1 +
      ((0 : ℚ), ([] : List String),
        ["Technical analysis skipped - price history not available"]).1 +
      (analyze_sector_performance "AAA" (intrinsicWriteBack (normalizeRecord recConsumer))
        (updateAssoc [("AAA", recConsumer)] "AAA"
          (intrinsicWriteBack (normalizeRecord recConsumer)))).1 +
      (analyze_ownership_patterns (intrinsicWriteBack (normalizeRecord recConsumer))).1 +
      (analyze_corporate_actions (intrinsicWriteBack (normalizeRecord recConsumer))).1 :=
  total_score_eq_evaluator_sum 0 "AAA" recConsumer [("AAA", recConsumer)]
    resConsumer recConsumerFinal
    ((0 : ℚ), ([] : List String),
      ["Technical analysis skipped - price history not available"])
    consumer_processStock
    (by rw [consumer_norm, consumer_writeback]; exact consumer_technical)

/-- C3 counterexample: the metric normalizer is not idempotent.  A
record with `debt_to_equity = 400` normalizes once to 4, and a second
application divides again (4 is still above the threshold 3), giving
0.04. -/
theorem normalizer_twice_differs :
    normalizeRecord (normalizeRecord rec400) ≠ normalizeRecord rec400 := by
  with_unfolding_all decide

/-- C3 (amended): the metric normalizer is idempotent exactly on
records whose `debt_to_equity`, when present, is at most 300 (so that
the once-normalized value does not exceed the percent-detection
threshold 3 again). -/
theorem normalizer_idempotent_le_300 (data : StockRecord)
    (h : ∀ v, data.debt_to_equity = some v → v ≤ 300) :
    normalizeRecord (normalizeRecord data) = normalizeRecord data := by
  rcases hde : data.debt_to_equity with _ | v
  · have h1 : normalizeRecord data = data := by
      simp [normalizeRecord, hde]
    rw [h1, h1]
  · by_cases h3 : v ≠ 0 ∧ 3 < v
    · have h1 : normalizeRecord data =
          { data with debt_to_equity := some (v / 100) } := by
        simp only [normalizeRecord, hde]
        rw [if_pos h3]
      rw [h1]
      have hv : v ≤ 300 := h v hde
      have hcond : ¬(v / 100 ≠ 0 ∧ 3 < v / 100) := by
        rintro ⟨-, hgt⟩
        rw [lt_div_iff₀ (show (0:ℚ) < 100 by norm_num)] at hgt
        linarith
      simp only [normalizeRecord]
      rw [if_neg hcond]
    · have h1 : normalizeRecord data = data := by
        simp only [normalizeRecord, hde]
        rw [if_neg h3]
      rw [h1, h1]

/-- Witness for the amended C3 at `debt_to_equity = 250`. -/
theorem normalizer_idempotent_le_300_w :
    normalizeRecord (normalizeRecord rec250) = normalizeRecord rec250 :=
  normalizer_idempotent_le_300 rec250 (by
    intro v hv
    have h250 : some (250 : ℚ) = some v := hv
    have hveq := Option.some.inj h250
    rw [← hveq]
    norm_num)

/-- C5: when no nonzero intrinsic value is stored on the record and at
least one alternative valuation method succeeds,
`calculate_final_intrinsic_value` returns exactly the median of the
successful alternative values. -/
theorem fallback_intrinsic_is_median (data : StockRecord)
    (h0 : data.intrinsic_value.getD 0 = 0)
    (hne : calculate_intrinsic_value_alternative data ≠ []) :
    finalIV data = medianQ ((calculate_intrinsic_value_alternative data).map Prod.snd) := by
  cases hl : calculate_intrinsic_value_alternative data with
  | nil => exact absurd hl hne
  | cons a as =>
    simp [finalIV, calculate_final_intrinsic_value, h0, hl]

/-- Witness for C5 at a record with eps 10 and no stored intrinsic
value (Graham and P/E-multiple methods succeed). -/
theorem fallback_intrinsic_is_median_w :
    finalIV recEps = medianQ ((calculate_intrinsic_value_alternative recEps).map Prod.snd) :=
  fallback_intrinsic_is_median recEps (by with_unfolding_all decide)
    (by with_unfolding_all decide)

/-- C7: whenever the sector is missing (defaulted to Unknown) or fewer
than 2 same-sector peers exist, the sector-performance evaluator
returns score 0 together with a warning, and no exception. -/
theorem sector_insufficient_peers (symbol : String) (data : StockRecord)
    (all_stocks_data : List (String × StockRecord))
    (h : data.sector.getD "Unknown" = "Unknown" ∨
      (sectorPeers symbol (data.sector.getD "Unknown") all_stocks_data).length < 2) :
    (analyze_sector_performance symbol data all_stocks_data).1 = 0 ∧
    (analyze_sector_performance symbol data all_stocks_data).2.2 ≠ [] := by
  by_cases hs : data.sector.getD "Unknown" = "Unknown"
  · have he : analyze_sector_performance symbol data all_stocks_data =
        (0, [], ["Unable to perform sector analysis: sector information missing"]) := by
      simp [analyze_sector_performance, hs]
    rw [he]
    exact ⟨rfl, by simp⟩
  · rcases h with h | h
    · exact absurd h hs
    · have he : analyze_sector_performance symbol data all_stocks_data =
          (0, [], ["Not enough peers in sector for comparison"]) := by
        simp [analyze_sector_performance, hs, h]
      rw [he]
      exact ⟨rfl, by simp⟩

/-- Witness for C7 at a record with no sector information. -/
theorem sector_insufficient_peers_w :
    (analyze_sector_performance "AAA" emptyStockRecord []).1 = 0 ∧
    (analyze_sector_performance "AAA" emptyStockRecord []).2.2 ≠ [] :=
  sector_insufficient_peers "AAA" emptyStockRecord [] (Or.inl rfl)

/-- C9: a symbol containing the substring `.BO` is skipped entirely by
`buffett_analysis`: it has no entry in the detailed audit dump and none
in the picks, regardless of the record contents. -/
theorem bo_symbols_excluded (input : List (String × StockRecord))
    (det picks : List (String × StockResult))
    (h : buffett_analysis input = some (det, picks))
    (symbol : String) (hbo : substrOf ".BO" symbol = true) (e : StockResult) :
    (symbol, e) ∉ det ∧ (symbol, e) ∉ picks := by
  unfold buffett_analysis at h
  cases hr : runAux input 0 input with
  | none => rw [hr] at h; cases h
  | some pr =>
    obtain ⟨det0, picks0⟩ := pr
    rw [hr] at h
    dsimp only [] at h
    simp only [Option.some.injEq, Prod.mk.injEq] at h
    obtain ⟨hdet, hpicks⟩ := h
    obtain ⟨hfil, -, -, hBO⟩ := runAux_spec input input 0 det0 picks0 hr
    subst hdet
    constructor
    · intro hm
      have hfalse := hBO _ hm
      rw [hbo] at hfalse
      cases hfalse
    · intro hm
      rw [← hpicks] at hm
      have hm2 := mem_sortPicksDesc.1 hm
      rw [hfil] at hm2
      have hm3 := (List.mem_filter.1 hm2).1
      have hfalse := hBO _ hm3
      rw [hbo] at hfalse
      cases hfalse

/-- Witness for C9 at an input containing one BSE symbol. -/
theorem bo_symbols_excluded_w :
    ("X.BO", resZero) ∉ ([] : List (String × StockResult)) ∧
    ("X.BO", resZero) ∉ ([] : List (String × StockResult)) :=
  bo_symbols_excluded [("X.BO", emptyStockRecord)] [] []
    (by with_unfolding_all decide) "X.BO" (by decide) resZero

/-- C10: a record belongs to the sector peer pool exactly when it is an
entry of the input mapping that carries no error, stores a sector
string exactly equal to the subject sector, and has a symbol different
from the subject symbol. -/
theorem peer_pool_exact_membership (symbol : String) (data : StockRecord)
    (db : List (String × StockRecord)) (s : String) (r : StockRecord) :
    (s, r) ∈ sectorPeers symbol (data.sector.getD "Unknown") db ↔
      ((s, r) ∈ db ∧ r.error = false ∧
        r.sector = some (data.sector.getD "Unknown") ∧ s ≠ symbol) := by
  simp [sectorPeers, List.mem_filter, Bool.and_eq_true, bne_iff_ne, and_assoc]

/-- C2: a stock appears in the picks returned by `buffett_analysis`
exactly when its audit entry has total score at least 10, the audit
entries carry strictly increasing input positions, and the picks are
ordered by total score descending with ties kept in input order
(stable sort). -/
theorem picks_threshold_sorted_stable
    (input : List (String × StockRecord))
    (det picks : List (String × StockResult))
    (h : buffett_analysis input = some (det, picks)) :
    (∀ p, p ∈ picks ↔ p ∈ det ∧ 10 ≤ p.2.total_score) ∧
    det.Pairwise idxOrder ∧
    picks.Pairwise pickOrder := by
  unfold buffett_analysis at h
  cases hr : runAux input 0 input with
  | none => rw [hr] at h; cases h
  | some pr =>
    obtain ⟨det0, picks0⟩ := pr
    rw [hr] at h
    dsimp only [] at h
    simp only [Option.some.injEq, Prod.mk.injEq] at h
    obtain ⟨hdet, hpicks⟩ := h
    obtain ⟨hfil, hpw, -, -⟩ := runAux_spec input input 0 det0 picks0 hr
    subst hdet
    refine ⟨?_, hpw, ?_⟩
    · intro p
      rw [← hpicks, mem_sortPicksDesc, hfil, List.mem_filter]
      simp
    · rw [← hpicks]
      exact pairwise_sortPicksDesc (by rw [hfil]; exact hpw.filter _)

/-- Witness for C2 at a one-record input whose stock scores 13. -/
theorem picks_threshold_sorted_stable_w :
    (("AAA", resConsumer) ∈ [("AAA", resConsumer)] ↔
      ("AAA", resConsumer) ∈ [("AAA", resConsumer)] ∧
        (10 : ℚ) ≤ ("AAA", resConsumer).2.total_score) ∧
    ([("AAA", resConsumer)] : List (String × StockResult)).Pairwise idxOrder ∧
    ([("AAA", resConsumer)] : List (String × StockResult)).Pairwise pickOrder :=
  (fun hh => ⟨hh.1 ("AAA", resConsumer), hh.2.1, hh.2.2⟩)
    (picks_threshold_sorted_stable [("AAA", recConsumer)]
      [("AAA", resConsumer)] [("AAA", resConsumer)] consumer_run)

/-- C4 counterexample: on a record with every metric absent, the
macroeconomic evaluator applied to an NSE symbol returns score 1, not
0 (and it returns a bare reason string, not a warnings list). -/
theorem macro_ns_empty_scores_one :
    (analyze_macroeconomic_factors "RELIANCE.NS" emptyStockRecord).1 ≠ 0 := by
  with_unfolding_all decide

/-- C4 (amended): on a record with every metric absent, each of the
eight evaluators that return a warnings list (growth, operating
efficiency, financial health, valuation, technical, sector
performance, ownership, corporate actions) returns score 0 with a
non-empty warnings list and no exception; the four qualitative
evaluators return a bare `(score, reason)` pair instead, scoring 0 —
except the macroeconomic evaluator, which returns 1 for `.NS`
symbols. -/
theorem evaluators_on_missing_metrics (sym : String)
    (db : List (String × StockRecord)) :
    ((analyze_growth_metrics emptyStockRecord).1 = 0 ∧
      (analyze_growth_metrics emptyStockRecord).2.2 ≠ []) ∧
    ((analyze_operating_efficiency emptyStockRecord).1 = 0 ∧
      (analyze_operating_efficiency emptyStockRecord).2.2 ≠ []) ∧
    ((analyze_financial_health emptyStockRecord).1 = 0 ∧
      (analyze_financial_health emptyStockRecord).2.2 ≠ []) ∧
    ((analyze_valuation emptyStockRecord).1 = 0 ∧
      (analyze_valuation emptyStockRecord).2.2 ≠ []) ∧
    (analyze_technical_indicators emptyStockRecord =
      some (0, [], ["Technical analysis skipped - price history not available"])) ∧
    ((analyze_sector_performance sym emptyStockRecord db).1 = 0 ∧
      (analyze_sector_performance sym emptyStockRecord db).2.2 ≠ []) ∧
    ((analyze_ownership_patterns emptyStockRecord).1 = 0 ∧
      (analyze_ownership_patterns emptyStockRecord).2.2 ≠ []) ∧
    ((analyze_corporate_actions emptyStockRecord).1 = 0 ∧
      (analyze_corporate_actions emptyStockRecord).2.2 ≠ []) ∧
    (analyze_industry_dynamics sym emptyStockRecord).1 = 0 ∧
    (analyze_regulatory_environment sym emptyStockRecord).1 = 0 ∧
    (analyze_economic_moat sym emptyStockRecord).1 = 0 ∧
    (analyze_macroeconomic_factors sym emptyStockRecord).1 =
      (if substrOf ".NS" sym then 1 else 0) := by
  have hsec : analyze_sector_performance sym emptyStockRecord db =
      (0, [], ["Unable to perform sector analysis: sector information missing"]) := rfl
  refine ⟨by with_unfolding_all decide, by with_unfolding_all decide,
    by with_unfolding_all decide, by with_unfolding_all decide,
    by with_unfolding_all decide, by rw [hsec]; exact ⟨rfl, by simp⟩,
    by with_unfolding_all decide, by with_unfolding_all decide,
    by with_unfolding_all rfl, ?_, by with_unfolding_all rfl, ?_⟩
  · cases hNS : substrOf ".NS" sym <;>
      simp only [analyze_regulatory_environment, hNS, Bool.false_eq_true, if_false,
        if_true] <;> with_unfolding_all decide
  · cases hNS : substrOf ".NS" sym <;>
      simp only [analyze_macroeconomic_factors, hNS, Bool.false_eq_true, if_false,
        if_true] <;> with_unfolding_all decide

/-- C6 counterexample: a record storing a nonzero intrinsic value and a
negative margin of safety is passed through unchanged, so the margin
produced is negative even though the price is at or above the
intrinsic value. -/
theorem stored_negative_margin_passthrough :
    finalMos recNegMos < 0 ∧
    finalIV recNegMos ≤ recNegMos.current_price.getD 0 ∧
    finalMos recNegMos ≠ 0 := by
  with_unfolding_all decide

/-- C6 (amended): the margin of safety is never negative whenever the
stored `margin_of_safety` (returned unchanged when a stored nonzero
intrinsic value short-circuits the computation) is absent or
nonnegative; and whenever the computation itself derives the margin
(no stored intrinsic value and a successful alternative method), it
equals `(intrinsic - price) / intrinsic * 100` exactly when
`0 < price < intrinsic` and is exactly 0 otherwise (in particular
whenever `price ≥ intrinsic`). -/
theorem margin_of_safety_computed_branch (data : StockRecord) :
    (0 ≤ data.margin_of_safety.getD 0 → 0 ≤ finalMos data) ∧
    (data.intrinsic_value.getD 0 = 0 →
      calculate_intrinsic_value_alternative data ≠ [] →
      finalMos data =
        if 0 < data.current_price.getD 0 ∧ data.current_price.getD 0 < finalIV data
        then (finalIV data - data.current_price.getD 0) / finalIV data * 100
        else 0) := by
  by_cases h0 : data.intrinsic_value.getD 0 = 0
  · cases hl : calculate_intrinsic_value_alternative data with
    | nil =>
      have hm : finalMos data = data.margin_of_safety.getD 0 := by
        simp [finalMos, calculate_final_intrinsic_value, h0, hl]
      exact ⟨fun hge => by rw [hm]; exact hge, fun _ hne => absurd rfl hne⟩
    | cons a as =>
      have hiv : finalIV data = medianQ ((a :: as).map Prod.snd) := by
        simp [finalIV, calculate_final_intrinsic_value, h0, hl]
      have hm : finalMos data =
          if 0 < data.current_price.getD 0 ∧ data.current_price.getD 0 < finalIV data
          then (finalIV data - data.current_price.getD 0) / finalIV data * 100
          else 0 := by
        rw [hiv]
        simp [finalMos, calculate_final_intrinsic_value, h0, hl]
      refine ⟨fun _ => ?_, fun _ _ => hm⟩
      rw [hm]
      split
      · rename_i hcond
        have hp : 0 < data.current_price.getD 0 := hcond.1
        have hlt : data.current_price.getD 0 < finalIV data := hcond.2
        have hivpos : 0 < finalIV data := lt_trans hp hlt
        have hnum : 0 ≤ finalIV data - data.current_price.getD 0 := by linarith
        have hdiv : 0 ≤ (finalIV data - data.current_price.getD 0) / finalIV data :=
          div_nonneg hnum (le_of_lt hivpos)
        nlinarith
      · exact le_refl 0
  · have hm : finalMos data = data.margin_of_safety.getD 0 := by
      simp [finalMos, calculate_final_intrinsic_value, h0]
    exact ⟨fun hge => by rw [hm]; exact hge, fun hiv0 _ => absurd hiv0 h0⟩

/-- Witness for the amended C6 at a record with eps 10 and price 100
(fallback branch, intrinsic 167.5 above the price). -/
theorem margin_of_safety_computed_branch_w :
    finalMos recEps =
      if 0 < recEps.current_price.getD 0 ∧ recEps.current_price.getD 0 < finalIV recEps
      then (finalIV recEps - recEps.current_price.getD 0) / finalIV recEps * 100
      else 0 :=
  (margin_of_safety_computed_branch recEps).2 (by with_unfolding_all decide)
    (by with_unfolding_all decide)

/-- C8 counterexample: on a record whose FCF yield is 25% (above every
plausibility bound the specification names), no evaluator contributes
a negative score; the financial-health evaluator instead awards its
maximal FCF tier of +3.  There is no data-quality / anomaly evaluator
in the code. -/
theorem high_fcf_yield_scores_positive :
    normalizeRecord recFCF = recFCF ∧
    (analyze_financial_health recFCF).1 = 3 ∧
    0 ≤ (analyze_growth_metrics recFCF).1 ∧
    0 ≤ (analyze_operating_efficiency recFCF).1 ∧
    0 ≤ (analyze_valuation recFCF).1 ∧
    0 ≤ (analyze_industry_dynamics "AAA" recFCF).1 ∧
    0 ≤ (analyze_regulatory_environment "AAA" recFCF).1 ∧
    0 ≤ (analyze_macroeconomic_factors "AAA" recFCF).1 ∧
    0 ≤ (analyze_economic_moat "AAA" recFCF).1 ∧
    analyze_technical_indicators (intrinsicWriteBack recFCF) =
      some (0, [], ["Technical analysis skipped - price history not available"]) ∧
    0 ≤ (analyze_sector_performance "AAA" (intrinsicWriteBack recFCF)
      (updateAssoc [("AAA", recFCF)] "AAA" (intrinsicWriteBack recFCF))).1 ∧
    0 ≤ (analyze_ownership_patterns (intrinsicWriteBack recFCF)).1 ∧
    0 ≤ (analyze_corporate_actions (intrinsicWriteBack recFCF)).1 := by
  with_unfolding_all decide

/-- C8 (amended): the scoring engine contains no data-quality
evaluator; the values the specification calls implausible receive
positive contributions instead.  Any FCF yield above 20% falls in the
top tier of the financial-health evaluator (+3), and a debt-to-equity
of 12 (above 10) is rescaled to 0.12 by the normalizer and then also
scores +3. -/
theorem implausible_values_score_positive (f m : ℚ) (hm : 0 < m)
    (hy : 20 < f / m * 100) :
    (analyze_financial_health { fcf := some f, market_cap := some m }).1 = 3 ∧
    (normalizeRecord { debt_to_equity := some 12 }).debt_to_equity = some (12 / 100) ∧
    (analyze_financial_health (normalizeRecord { debt_to_equity := some 12 })).1 = 3 := by
  refine ⟨?_, by with_unfolding_all decide, by with_unfolding_all decide⟩
  have h8 : (8 : ℚ) < f / m * 100 := by linarith
  have hf : 0 < f := by
    have h1 : (0 : ℚ) < f / m := by linarith
    rcases div_pos_iff.1 h1 with ⟨hfpos, -⟩ | ⟨-, hmneg⟩
    · exact hfpos
    · linarith
  simp only [analyze_financial_health, combineER]
  norm_num [hf, hm, ne_of_gt hm, h8]

/-- Witness for the amended C8 at fcf 25 on market cap 100. -/
theorem implausible_values_score_positive_w :
    (analyze_financial_health { fcf := some 25, market_cap := some 100 }).1 = 3 ∧
    (normalizeRecord { debt_to_equity := some 12 }).debt_to_equity = some (12 / 100) ∧
    (analyze_financial_health (normalizeRecord { debt_to_equity := some 12 })).1 = 3 :=
  implausible_values_score_positive 25 100 (by norm_num) (by norm_num)

/-- Witness for the amended C4 at an NSE symbol and empty peer set. -/
theorem evaluators_on_missing_metrics_w :
    ((analyze_growth_metrics emptyStockRecord).1 = 0 ∧
      (analyze_growth_metrics emptyStockRecord).2.2 ≠ []) ∧
    ((analyze_operating_efficiency emptyStockRecord).1 = 0 ∧
      (analyze_operating_efficiency emptyStockRecord).2.2 ≠ []) ∧
    ((analyze_financial_health emptyStockRecord).1 = 0 ∧
      (analyze_financial_health emptyStockRecord).2.2 ≠ []) ∧
    ((analyze_valuation emptyStockRecord).1 = 0 ∧
      (analyze_valuation emptyStockRecord).2.2 ≠ []) ∧
    (analyze_technical_indicators emptyStockRecord =
      some (0, [], ["Technical analysis skipped - price history not available"])) ∧
    ((analyze_sector_performance "RELIANCE.NS" emptyStockRecord []).1 = 0 ∧
      (analyze_sector_performance "RELIANCE.NS" emptyStockRecord []).2.2 ≠ []) ∧
    ((analyze_ownership_patterns emptyStockRecord).1 = 0 ∧
      (analyze_ownership_patterns emptyStockRecord).2.2 ≠ []) ∧
    ((analyze_corporate_actions emptyStockRecord).1 = 0 ∧
      (analyze_corporate_actions emptyStockRecord).2.2 ≠ []) ∧
    (analyze_industry_dynamics "RELIANCE.NS" emptyStockRecord).1 = 0 ∧
    (analyze_regulatory_environment "RELIANCE.NS" emptyStockRecord).1 = 0 ∧
    (analyze_economic_moat "RELIANCE.NS" emptyStockRecord).1 = 0 ∧
    (analyze_macroeconomic_factors "RELIANCE.NS" emptyStockRecord).1 =
      (if substrOf ".NS" "RELIANCE.NS" then 1 else 0) :=
  evaluators_on_missing_metrics "RELIANCE.NS" []

/-- Witness for C10 at a two-symbol mapping sharing one sector. -/
theorem peer_pool_exact_membership_w :
    (("BBB", recConsumer) ∈
        sectorPeers "AAA" (recConsumer.sector.getD "Unknown") [("BBB", recConsumer)]) ↔
      (("BBB", recConsumer) ∈ [("BBB", recConsumer)] ∧ recConsumer.error = false ∧
        recConsumer.sector = some (recConsumer.sector.getD "Unknown") ∧
        "BBB" ≠ "AAA") :=
  peer_pool_exact_membership "AAA" recConsumer [("BBB", recConsumer)] "BBB" recConsumer
